import Mathlib

/-!
Verification development for the gldap LDAP server framework (Go).

The definitions below are a shallow embedding of the Go source files
server.go, request.go and response_options.go.  Go pointers that may be
nil are modelled as Option; Go errors are an inductive type carrying the
wrap chain produced by fmt.Errorf with %w; Go int16 conversion is modelled
by explicit wrap-around on Int.  Strings are modelled as Lean strings; the
case-folding used by the route matcher is the ASCII case folding (see
stringsToLower below).
-/

/-! ### String helpers (Go standard library fragments) -/

/-- ASCII lower-casing of a single character: bytes 65..90 (uppercase
letters) are shifted to 97..122, everything else is unchanged. -/
def asciiLowerChar (c : Char) : Char :=
  if 65 ≤ c.toNat ∧ c.toNat ≤ 90 then Char.ofNat (c.toNat + 32) else c

/-- Model of Go strings.ToLower, restricted to ASCII case folding (the
route predicates of the spec are stated for ASCII-case-insensitive
comparison; on pure-ASCII strings this agrees with Go exactly). -/
def stringsToLower (s : String) : String :=
  ⟨s.data.map asciiLowerChar⟩

/-- Helper for strings.Contains: does the second list occur as a
contiguous run inside the first? -/
def charsContain (hay sub : List Char) : Bool :=
  match hay with
  | [] => sub.isEmpty
  | _ :: rest => sub.isPrefixOf hay || charsContain rest sub

/-- Model of Go strings.Contains. -/
def stringsContains (s sub : String) : Bool :=
  charsContain s.data sub.data

/-! ### Go errors

Errors are modelled as the sentinel errors of the package plus a wrap
constructor for fmt.Errorf("...: %w", ...).  GoErr.message models
Error(), GoErr.is models errors.Is for this wrap discipline. -/

inductive GoErr : Type where
  | invalidParameter : GoErr
  | internal : GoErr
  | protocolErr : GoErr
  | unsupportedOperation : GoErr
  | netClosed : GoErr
  | other (msg : String) : GoErr
  | wrap (pre : String) (inner : GoErr) : GoErr
deriving DecidableEq, Repr

/-- Error() string of a modelled Go error.  A wrapped error renders as
"prefix: inner" exactly as fmt.Errorf("%s: %w", pre, inner) does. -/
def GoErr.message : GoErr → String
  | .invalidParameter => "invalid parameter"
  | .internal => "internal error"
  | .protocolErr => "protocol error"
  | .unsupportedOperation => "unsupported operation"
  | .netClosed => "use of closed network connection"
  | .other msg => msg
  | .wrap pre inner => pre ++ ": " ++ inner.message

/-- errors.Is for the modelled wrap chain. -/
def GoErr.is (e target : GoErr) : Bool :=
  match e with
  | .wrap _ inner => inner.is target
  | e' => decide (e' = target)

/-! ### Message model (request.go and the decoded message variants)

Each message carries its LDAP messageID (GetID in Go).  Field sets follow
the spec's data model; fields that no modelled function reads (for
example derefAliases) are kept where they are cheap. -/

abbrev Scope := Int

structure SimpleBindMessage where
  id : Nat
  authChoice : String
  userName : String
  password : String
deriving DecidableEq, Repr

structure SearchMessage where
  id : Nat
  baseDN : String
  scope : Scope
  derefAliases : Int
  sizeLimit : Nat
  timeLimit : Nat
  typesOnly : Bool
  filter : String
  attributes : List String
deriving DecidableEq, Repr

structure ExtendedOperationMessage where
  id : Nat
  name : String
  value : String
deriving DecidableEq, Repr

structure ModifyMessage where
  id : Nat
  dn : String
deriving DecidableEq, Repr

structure AddMessage where
  id : Nat
  dn : String
deriving DecidableEq, Repr

/-- The tagged union of decoded messages (Go interface Message). -/
inductive Message : Type where
  | simpleBind (m : SimpleBindMessage)
  | search (m : SearchMessage)
  | extendedOperation (m : ExtendedOperationMessage)
  | modify (m : ModifyMessage)
  | add (m : AddMessage)
deriving DecidableEq, Repr

/-- GetID: the LDAP messageID carried by every message variant. -/
def Message.GetID : Message → Nat
  | .simpleBind m => m.id
  | .search m => m.id
  | .extendedOperation m => m.id
  | .modify m => m.id
  | .add m => m.id

/-! ### Route operations and requests -/

/-- routeOperation from response_options.go (string constants in Go,
an enumeration here). -/
inductive RouteOperation : Type where
  | undefined
  | bind
  | search
  | extendedOperation
  | modify
  | add
  | noRoute
deriving DecidableEq, Repr

/-- A connection; only its identity matters to the modelled functions
(the network state lives outside the embedding). -/
structure Conn where
  connID : Nat
deriving DecidableEq, Repr

/-- Request from request.go.  The Go conn pointer is a plain field here;
newRequest below receives it as an Option to model nil. -/
structure Request where
  ID : Nat
  conn : Conn
  message : Message
  routeOp : RouteOperation
  extendedName : String
deriving DecidableEq, Repr

/-! ### Routes (response_options.go)

Each Go route struct embeds baseRoute; the handler function h is kept as
an abstract identifier since no modelled code calls it.  The Go method
name match is a Lean keyword, so the methods are called matches. -/

structure BaseRoute where
  h : Nat
  routeOp : RouteOperation
  label : String
deriving DecidableEq, Repr

structure searchRoute where
  base : BaseRoute
  basedn : String
  filter : String
  scope : Scope
deriving DecidableEq, Repr

structure simpleBindRoute where
  base : BaseRoute
  authChoice : String
deriving DecidableEq, Repr

structure extendedRoute where
  base : BaseRoute
  extendedName : String
deriving DecidableEq, Repr

structure modifyRoute where
  base : BaseRoute
deriving DecidableEq, Repr

structure addRoute where
  base : BaseRoute
deriving DecidableEq, Repr

def searchRoute.op (r : searchRoute) : RouteOperation := r.base.routeOp

def simpleBindRoute.op (r : simpleBindRoute) : RouteOperation := r.base.routeOp

def extendedRoute.op (r : extendedRoute) : RouteOperation := r.base.routeOp

def modifyRoute.op (r : modifyRoute) : RouteOperation := r.base.routeOp

def addRoute.op (r : addRoute) : RouteOperation := r.base.routeOp

/-- baseRoute match: always false. -/
def BaseRoute.matches (_ : BaseRoute) (_ : Option Request) : Bool := false

/-- addRoute match from response_options.go. -/
def addRoute.matches (r : addRoute) (req : Option Request) : Bool :=
  match req with
  | none => false
  | some req =>
    if r.op ≠ req.routeOp then false
    else
      match req.message with
      | .add _ => true
      | _ => false

/-- modifyRoute match from response_options.go. -/
def modifyRoute.matches (r : modifyRoute) (req : Option Request) : Bool :=
  match req with
  | none => false
  | some req =>
    if r.op ≠ req.routeOp then false
    else
      match req.message with
      | .modify _ => true
      | _ => false

/-- simpleBindRoute match from response_options.go: the request must be a
simple-bind message and the route's authChoice must be non-empty and
equal to the message's. -/
def simpleBindRoute.matches (r : simpleBindRoute) (req : Option Request) : Bool :=
  match req with
  | none => false
  | some req =>
    if r.op ≠ req.routeOp then false
    else
      match req.message with
      | .simpleBind m =>
        if r.authChoice ≠ "" ∧ r.authChoice = m.authChoice then true else false
      | _ => false

/-- extendedRoute match from response_options.go. -/
def extendedRoute.matches (r : extendedRoute) (req : Option Request) : Bool :=
  match req with
  | none => false
  | some req =>
    if r.op ≠ req.routeOp then false
    else if r.extendedName ≠ req.extendedName then false
    else
      match req.message with
      | .extendedOperation _ => true
      | _ => false

/-- searchRoute match from response_options.go: empty basedn and filter
predicates are wildcards, configured ones compare after strings.ToLower;
scope 0 is a wildcard. -/
def searchRoute.matches (r : searchRoute) (req : Option Request) : Bool :=
  match req with
  | none => false
  | some req =>
    if r.op ≠ req.routeOp then false
    else
      match req.message with
      | .search searchMsg =>
        if r.basedn ≠ "" ∧ stringsToLower searchMsg.baseDN ≠ stringsToLower r.basedn then false
        else if r.filter ≠ "" ∧ stringsToLower searchMsg.filter ≠ stringsToLower r.filter then false
        else if r.scope ≠ 0 ∧ searchMsg.scope ≠ r.scope then false
        else true
      | _ => false

/-! ### Packets and request construction (request.go) -/

/-- The protocolOp of an inbound PDU, discriminated by its BER
application tag (the payloads kept are the ones the message builder
needs). -/
inductive PacketOp : Type where
  | bindOp (authChoice userName password : String)
  | searchOp (baseDN : String) (scope : Scope) (filter : String)
  | modifyOp (dn : String)
  | addOp (dn : String)
  | extendedOp (name value : String)
  | otherOp (tag : Nat)
deriving DecidableEq, Repr

/-- A decoded BER packet: the LDAP messageID plus the protocolOp. -/
structure packet where
  messageID : Nat
  op : PacketOp
deriving DecidableEq, Repr

/-- Modelled from the spec: NewMessage, the message decoder, lives in a
source file not present in the excerpt.  Per the spec's message-model
section it dispatches on the protocolOp application tag: tag 0 gives a
SimpleBindMessage, 3 a SearchMessage, 6 a ModifyMessage, 8 an AddMessage,
23 an ExtendedOperationMessage, and any other tag is rejected as an
unsupported operation. -/
def NewMessage (p : packet) : Except GoErr Message :=
  match p.op with
  | .bindOp ac u pw => .ok (.simpleBind ⟨p.messageID, ac, u, pw⟩)
  | .searchOp dn sc f => .ok (.search ⟨p.messageID, dn, sc, 0, 0, 0, false, f, []⟩)
  | .modifyOp dn => .ok (.modify ⟨p.messageID, dn⟩)
  | .addOp dn => .ok (.add ⟨p.messageID, dn⟩)
  | .extendedOp n v => .ok (.extendedOperation ⟨p.messageID, n, v⟩)
  | .otherOp _ => .error (.wrap "gldap.NewMessage" .unsupportedOperation)

/-- newRequest from request.go: nil checks, message construction, then
the route-operation switch.  Note the switch only recognizes the
simple-bind, search and extended-operation variants; every other message
falls to the default branch and is rejected with ErrInternal. -/
def newRequest (id : Nat) (c : Option Conn) (p : Option packet) : Except GoErr Request :=
  match c with
  | none => .error (.wrap "gldap.newRequest: missing connection" .invalidParameter)
  | some c =>
    match p with
    | none => .error (.wrap "gldap.newRequest: missing ber packet" .invalidParameter)
    | some p =>
      match NewMessage p with
      | .error e => .error (.wrap "gldap.newRequest: unable to build message for request" e)
      | .ok m =>
        match m with
        | .simpleBind _ => .ok ⟨id, c, m, .bind, ""⟩
        | .search _ => .ok ⟨id, c, m, .search, ""⟩
        | .extendedOperation v => .ok ⟨id, c, m, .extendedOperation, v.name⟩
        | _ => .error (.wrap "gldap.newRequest: unsupported route operation" .internal)

/-- True exactly on the error branch of a request construction. -/
def requestFailed : Except GoErr Request → Bool
  | .error _ => true
  | .ok _ => false

/-! ### Response options (response_options.go) -/

/-- The functional options applicable to response construction (Go's
Option closures over responseOptions, defunctionalized).  withAttributes
carries an association list standing for Go's map. -/
inductive GOption : Type where
  | withDiagnosticMessage (msg : String)
  | withMatchedDN (dn : String)
  | withResponseCode (code : Int)
  | withApplicationCode (code : Int)
  | withAttributes (attrs : List (String × List String))
deriving DecidableEq, Repr

structure responseOptions where
  withDiagnosticMessage : String
  withMatchedDN : String
  withResponseCode : Option Int
  withApplicationCode : Option Int
  withAttributes : List (String × List String)
deriving DecidableEq, Repr

/-- responseDefaults from response_options.go. -/
def responseDefaults : responseOptions :=
  { withDiagnosticMessage := "Unused"
    withMatchedDN := "Unused"
    withResponseCode := none
    withApplicationCode := none
    withAttributes := [] }

/-- Application of one option to the accumulating responseOptions. -/
def applyOpt (o : responseOptions) : GOption → responseOptions
  | .withDiagnosticMessage msg => { o with withDiagnosticMessage := msg }
  | .withMatchedDN dn => { o with withMatchedDN := dn }
  | .withResponseCode c => { o with withResponseCode := some c }
  | .withApplicationCode c => { o with withApplicationCode := some c }
  | .withAttributes a => { o with withAttributes := a }

/-- getResponseOpts: defaults, then each option applied in order. -/
def getResponseOpts (opt : List GOption) : responseOptions :=
  opt.foldl applyOpt responseDefaults

/-- Discriminator: is this option a WithResponseCode? -/
def GOption.isRespCode : GOption → Bool
  | .withResponseCode _ => true
  | _ => false

/-- Discriminator: is this option a WithMatchedDN? -/
def GOption.isMatchedDN : GOption → Bool
  | .withMatchedDN _ => true
  | _ => false

/-- Discriminator: is this option a WithDiagnosticMessage? -/
def GOption.isDiagMsg : GOption → Bool
  | .withDiagnosticMessage _ => true
  | _ => false

/-! ### Responses (request.go constructors) -/

/-- Go's int16(i) conversion on an int: two's-complement wrap-around. -/
def toInt16 (i : Int) : Int := (i + 32768) % 65536 - 32768

/-- ldap.LDAPResultUnwillingToPerform from go-ldap. -/
def ldapResultUnwillingToPerform : Int := 53

structure baseResponse where
  messageID : Nat
  code : Int
  diagMessage : String
  matchedDN : String
deriving DecidableEq, Repr

structure GeneralResponse where
  base : baseResponse
deriving DecidableEq, Repr

structure BindResponse where
  base : baseResponse
deriving DecidableEq, Repr

structure ExtendedResponse where
  base : baseResponse
deriving DecidableEq, Repr

structure SearchResponseDone where
  base : baseResponse
deriving DecidableEq, Repr

structure EntryAttribute where
  name : String
  values : List String
deriving DecidableEq, Repr

structure Entry where
  DN : String
  Attributes : List EntryAttribute
deriving DecidableEq, Repr

structure SearchResponseEntry where
  base : baseResponse
  entry : Entry
deriving DecidableEq, Repr

def newEntryAttribute (name : String) (values : List String) : EntryAttribute :=
  ⟨name, values⟩

/-- Request.NewResponse: defaults filled, then UnwillingToPerform (53)
substituted when no response code was supplied. -/
def Request.NewResponse (r : Request) (opt : List GOption) : GeneralResponse :=
  let opts0 := getResponseOpts opt
  let opts :=
    if opts0.withResponseCode = none then
      { opts0 with withResponseCode := some ldapResultUnwillingToPerform }
    else opts0
  ⟨{ messageID := r.message.GetID
     code := toInt16 (opts.withResponseCode.getD 0)
     diagMessage := opts.withDiagnosticMessage
     matchedDN := opts.withMatchedDN }⟩

/-- Request.NewExtendedResponse: messageID from the request, code set
only when supplied (Go zero values for the rest). -/
def Request.NewExtendedResponse (r : Request) (opt : List GOption) : ExtendedResponse :=
  let opts := getResponseOpts opt
  ⟨{ messageID := r.message.GetID
     code := match opts.withResponseCode with
             | some c => toInt16 c
             | none => 0
     diagMessage := ""
     matchedDN := "" }⟩

/-- Request.NewBindResponse, same shape as the extended response. -/
def Request.NewBindResponse (r : Request) (opt : List GOption) : BindResponse :=
  let opts := getResponseOpts opt
  ⟨{ messageID := r.message.GetID
     code := match opts.withResponseCode with
             | some c => toInt16 c
             | none => 0
     diagMessage := ""
     matchedDN := "" }⟩

/-- Request.NewSearchDoneResponse, same shape as the extended response. -/
def Request.NewSearchDoneResponse (r : Request) (opt : List GOption) : SearchResponseDone :=
  let opts := getResponseOpts opt
  ⟨{ messageID := r.message.GetID
     code := match opts.withResponseCode with
             | some c => toInt16 c
             | none => 0
     diagMessage := ""
     matchedDN := "" }⟩

/-- Request.NewSearchResponseEntry: entry attributes built from the
withAttributes option (Go ranges over a map; the association list is
traversed in order here). -/
def Request.NewSearchResponseEntry (r : Request) (entryDN : String) (opt : List GOption) :
    SearchResponseEntry :=
  let opts := getResponseOpts opt
  let newAttrs := opts.withAttributes.map fun p => newEntryAttribute p.1 p.2
  ⟨{ messageID := r.message.GetID
     code := 0
     diagMessage := ""
     matchedDN := "" },
   { DN := entryDN, Attributes := newAttrs }⟩

/-! ### Server (server.go) -/

/-- State of a TCP listener as Stop observes it: still open, or already
closed (for example closed externally before Stop runs). -/
inductive Listener : Type where
  | opened
  | closed
deriving DecidableEq, Repr

/-- Go's net listener Close: closing an open listener succeeds; closing
an already-closed one fails with the "use of closed network connection"
error (stdlib behavior, relied on by the repository's Stop test). -/
def Listener.close : Listener → Option GoErr
  | .opened => none
  | .closed => some .netClosed

/-- A route of the Mux (the tagged union behind the Go route interface). -/
inductive Route : Type where
  | base (r : BaseRoute)
  | searchR (r : searchRoute)
  | bindR (r : simpleBindRoute)
  | extendedR (r : extendedRoute)
  | modifyR (r : modifyRoute)
  | addR (r : addRoute)
deriving DecidableEq, Repr

structure Mux where
  routes : List Route
  defaultRoute : Option Route
deriving DecidableEq, Repr

/-- Server state as observed by Stop and Router: the listener pointer
(none models nil), presence of the shutdown cancel function, the router
pointer, and the listenerReady flag.  The logger, wait group and
timeouts have no bearing on the modelled results: logging is a side
effect only and the wait group drain terminates. -/
structure Server where
  listener : Option Listener
  shutdownCancel : Bool
  router : Option Mux
  listenerReady : Bool
deriving DecidableEq, Repr

/-- NewServer: fresh server with a default empty Mux, a live shutdown
cancel function and no listener (the listener appears only in Run). -/
def NewServer : Server :=
  { listener := none
    shutdownCancel := true
    router := some { routes := [], defaultRoute := none }
    listenerReady := false }

def Server.Ready (s : Server) : Bool := s.listenerReady

/-- Server.Stop from server.go: nothing to do when neither listener nor
cancel function exist; otherwise close the listener, swallowing a close
error that contains "use of closed network connection" and propagating
any other close error wrapped; then cancel and drain (modelled as
terminating no-ops).  Returns the error Stop returns, none for nil. -/
def Server.Stop (s : Server) : Option GoErr :=
  if s.listener = none ∧ s.shutdownCancel = false then none
  else
    match s.listener with
    | none => none
    | some l =>
      match l.close with
      | none => none
      | some err =>
        if ¬ stringsContains err.message "use of closed network connection" then
          some (.wrap "gldap.(Server).Stop" err)
        else none

/-- Server.Router from server.go: nil router rejected with a wrapped
ErrInvalidParameter and no state change, otherwise the router is
installed.  The pair returned is (error, resulting server state). -/
def Server.Router (s : Server) (r : Option Mux) : Option GoErr × Server :=
  match r with
  | none => (some (.wrap "gldap.(Server).HandleRoutes: missing router" .invalidParameter), s)
  | some m => (none, { s with router := some m })

/-- A concrete simple-bind request, used to instantiate theorems with
hypotheses on explicit inputs. -/
def reqEx : Request :=
  ⟨1, ⟨1⟩, .simpleBind ⟨1, "simple", "alice", "pw"⟩, .bind, ""⟩

/-! ### Characterization lemmas for the route matchers -/

/-- Unfolding of searchRoute.matches on a present request. -/
theorem searchRoute_matches_some_iff (r : searchRoute) (q : Request) :
    searchRoute.matches r (some q) = true ↔
      r.base.routeOp = q.routeOp ∧
      ∃ m, q.message = Message.search m ∧
        (r.basedn = "" ∨ stringsToLower m.baseDN = stringsToLower r.basedn) ∧
        (r.filter = "" ∨ stringsToLower m.filter = stringsToLower r.filter) ∧
        (r.scope = 0 ∨ m.scope = r.scope) := by
  obtain ⟨ID, conn, msg, rop, en⟩ := q
  cases msg with
  | search m =>
    simp only [searchRoute.matches, searchRoute.op]
    split_ifs with h1 h2 h3 h4 <;> simp_all
    exact ⟨or_iff_not_imp_left.mpr h2, or_iff_not_imp_left.mpr h3,
      or_iff_not_imp_left.mpr h4⟩
  | simpleBind m => simp [searchRoute.matches]
  | extendedOperation m => simp [searchRoute.matches]
  | modify m => simp [searchRoute.matches]
  | add m => simp [searchRoute.matches]

/-- Unfolding of simpleBindRoute.matches on a present request. -/
theorem simpleBindRoute_matches_some_iff (r : simpleBindRoute) (q : Request) :
    simpleBindRoute.matches r (some q) = true ↔
      r.base.routeOp = q.routeOp ∧
      ∃ m, q.message = Message.simpleBind m ∧
        r.authChoice ≠ "" ∧ r.authChoice = m.authChoice := by
  obtain ⟨ID, conn, msg, rop, en⟩ := q
  cases msg with
  | simpleBind m =>
    simp only [simpleBindRoute.matches, simpleBindRoute.op]
    split_ifs with h1 h2 <;> simp_all
    exact h2.2 ▸ h2.1
  | search m => simp [simpleBindRoute.matches]
  | extendedOperation m => simp [simpleBindRoute.matches]
  | modify m => simp [simpleBindRoute.matches]
  | add m => simp [simpleBindRoute.matches]

/-! ### Option-fold preservation lemmas -/

/-- Folding options none of which is WithResponseCode leaves the
response-code slot unchanged. -/
theorem foldl_applyOpt_respCode (opt : List GOption) (o : responseOptions)
    (h : ∀ x ∈ opt, x.isRespCode = false) :
    (opt.foldl applyOpt o).withResponseCode = o.withResponseCode := by
  induction opt generalizing o with
  | nil => rfl
  | cons x xs ih =>
    have hx := h x (List.mem_cons_self x xs)
    have hxs : ∀ y ∈ xs, y.isRespCode = false := fun y hy => h y (List.mem_cons_of_mem x hy)
    rw [List.foldl_cons, ih _ hxs]
    cases x <;> simp_all [applyOpt, GOption.isRespCode]

/-- Folding options none of which is WithMatchedDN leaves the matchedDN
slot unchanged. -/
theorem foldl_applyOpt_matchedDN (opt : List GOption) (o : responseOptions)
    (h : ∀ x ∈ opt, x.isMatchedDN = false) :
    (opt.foldl applyOpt o).withMatchedDN = o.withMatchedDN := by
  induction opt generalizing o with
  | nil => rfl
  | cons x xs ih =>
    have hx := h x (List.mem_cons_self x xs)
    have hxs : ∀ y ∈ xs, y.isMatchedDN = false := fun y hy => h y (List.mem_cons_of_mem x hy)
    rw [List.foldl_cons, ih _ hxs]
    cases x <;> simp_all [applyOpt, GOption.isMatchedDN]

/-- Folding options none of which is WithDiagnosticMessage leaves the
diagnostic-message slot unchanged. -/
theorem foldl_applyOpt_diagMsg (opt : List GOption) (o : responseOptions)
    (h : ∀ x ∈ opt, x.isDiagMsg = false) :
    (opt.foldl applyOpt o).withDiagnosticMessage = o.withDiagnosticMessage := by
  induction opt generalizing o with
  | nil => rfl
  | cons x xs ih =>
    have hx := h x (List.mem_cons_self x xs)
    have hxs : ∀ y ∈ xs, y.isDiagMsg = false := fun y hy => h y (List.mem_cons_of_mem x hy)
    rw [List.foldl_cons, ih _ hxs]
    cases x <;> simp_all [applyOpt, GOption.isDiagMsg]

/-! ### Claim theorems -/

/-- C1: a search route matches a request exactly when the request is
non-nil, its route-operation tag equals the route's, its message is a
SearchMessage, and each configured predicate holds: baseDN empty or equal
under ASCII-case-insensitive comparison, filter empty or equal under
ASCII-case-insensitive comparison, scope 0 or equal. -/
theorem searchRoute_match_characterization (r : searchRoute) (req : Option Request) :
    searchRoute.matches r req = true ↔
      ∃ q, req = some q ∧ r.base.routeOp = q.routeOp ∧
        ∃ m, q.message = Message.search m ∧
          (r.basedn = "" ∨ stringsToLower m.baseDN = stringsToLower r.basedn) ∧
          (r.filter = "" ∨ stringsToLower m.filter = stringsToLower r.filter) ∧
          (r.scope = 0 ∨ m.scope = r.scope) := by
  cases req with
  | none => simp [searchRoute.matches]
  | some q => simp [searchRoute_matches_some_iff]

/-- C5 counterexample: a search route whose filter is "(CN=A)" matches a
request whose filter is the byte-wise different string "(cn=a)", so the
configured filter predicate is not a literal (case-sensitive) compare. -/
theorem searchRoute_filter_literal_compare_refuted :
    searchRoute.matches
        ⟨⟨0, .search, ""⟩, "", "(CN=A)", 0⟩
        (some ⟨1, ⟨1⟩, .search ⟨1, "", 0, 0, 0, 0, false, "(cn=a)", []⟩, .search, ""⟩) = true
      ∧ "(cn=a)" ≠ "(CN=A)" := by
  constructor
  · decide
  · decide

/-- C5 (amended): a search route with a configured (non-empty) filter
matches a search request only when the request's filter equals the
route's filter under ASCII-case-insensitive comparison (equality after
lower-casing), not necessarily literally. -/
theorem searchRoute_filter_match_case_insensitive (r : searchRoute) (q : Request)
    (m : SearchMessage) (hmsg : q.message = Message.search m) (hf : r.filter ≠ "")
    (hmatch : searchRoute.matches r (some q) = true) :
    stringsToLower m.filter = stringsToLower r.filter := by
  obtain ⟨-, m', hm', -, hfil, -⟩ := (searchRoute_matches_some_iff r q).mp hmatch
  rw [hmsg] at hm'
  injection hm' with h
  subst h
  exact hfil.resolve_left hf

/-- Witness for the amended C5 theorem at a concrete route and request. -/
theorem searchRoute_filter_match_case_insensitive_witness :
    stringsToLower "(cn=a)" = stringsToLower "(CN=A)" :=
  searchRoute_filter_match_case_insensitive
    ⟨⟨0, .search, ""⟩, "", "(CN=A)", 0⟩
    ⟨1, ⟨1⟩, .search ⟨1, "", 0, 0, 0, 0, false, "(cn=a)", []⟩, .search, ""⟩
    ⟨1, "", 0, 0, 0, 0, false, "(cn=a)", []⟩
    rfl (by decide) (by decide)

/-- C6 counterexample: a simple-bind route whose authChoice predicate is
empty does not match a bind request carrying a SimpleBindMessage — the
empty authChoice is not a wildcard, it matches nothing. -/
theorem simpleBind_empty_authChoice_not_wildcard :
    simpleBindRoute.matches ⟨⟨0, .bind, ""⟩, ""⟩
      (some ⟨1, ⟨1⟩, .simpleBind ⟨1, "simple", "alice", "pw"⟩, .bind, ""⟩) = false := by
  decide

/-- C6 (amended): a simple-bind route matches exactly the non-nil
requests whose route-operation tag equals the route's and whose message
is a SimpleBindMessage with the route's authChoice non-empty and equal to
the message's authChoice; in particular a route with empty authChoice
matches no request. -/
theorem simpleBindRoute_match_characterization (r : simpleBindRoute) (req : Option Request) :
    simpleBindRoute.matches r req = true ↔
      ∃ q, req = some q ∧ r.base.routeOp = q.routeOp ∧
        ∃ m, q.message = Message.simpleBind m ∧
          r.authChoice ≠ "" ∧ r.authChoice = m.authChoice := by
  cases req with
  | none => simp [simpleBindRoute.matches]
  | some q => simp [simpleBindRoute_matches_some_iff]

/-- C2 (code bug): newRequest rejects packets whose protocolOp is a
Modify (tag 6) or Add (tag 8) operation: the message decoder produces
the ModifyMessage or AddMessage, but the route-operation switch in
newRequest has no case for them and falls to the ErrInternal default, so
no request with a modify or add route-operation tag is ever built. -/
theorem newRequest_rejects_modify_and_add :
    newRequest 1 (some ⟨1⟩) (some ⟨5, .modifyOp "dc=example,dc=org"⟩) =
        .error (.wrap "gldap.newRequest: unsupported route operation" .internal) ∧
      newRequest 1 (some ⟨1⟩) (some ⟨5, .addOp "dc=example,dc=org"⟩) =
        .error (.wrap "gldap.newRequest: unsupported route operation" .internal) :=
  ⟨rfl, rfl⟩

/-- C3 (code bug): Stop on a server whose listener was already closed
externally returns nil, because the "use of closed network connection"
error from closing the listener again is swallowed — contradicting the
repository's own Stop test, which expects an error containing that
string. -/
theorem stop_swallows_closed_listener_error :
    Server.Stop
      { listener := some .closed
        shutdownCancel := true
        router := some ⟨[], none⟩
        listenerReady := true } = none := by
  rfl

/-- C4: Stop on a server that was constructed by NewServer but never ran
(nil listener, live shutdown cancel function) returns nil. -/
theorem stop_on_never_run_server_returns_nil : Server.Stop NewServer = none := by
  rfl

/-- C7: a response built by NewResponse carries result code 53
(UnwillingToPerform) when no WithResponseCode option is supplied, and the
literal string "Unused" for matchedDN and diagnosticMessage when
WithMatchedDN resp. WithDiagnosticMessage is not supplied. -/
theorem newResponse_default_code_and_fields (r : Request) (opt : List GOption) :
    ((∀ x ∈ opt, x.isRespCode = false) →
        (r.NewResponse opt).base.code = 53) ∧
    ((∀ x ∈ opt, x.isMatchedDN = false) →
        (r.NewResponse opt).base.matchedDN = "Unused") ∧
    ((∀ x ∈ opt, x.isDiagMsg = false) →
        (r.NewResponse opt).base.diagMessage = "Unused") := by
  refine ⟨fun h => ?_, fun h => ?_, fun h => ?_⟩
  · have hc : (getResponseOpts opt).withResponseCode = none :=
      foldl_applyOpt_respCode opt responseDefaults h
    simp [Request.NewResponse, hc, ldapResultUnwillingToPerform, toInt16]
  · have hm : (getResponseOpts opt).withMatchedDN = "Unused" :=
      foldl_applyOpt_matchedDN opt responseDefaults h
    simp only [Request.NewResponse]
    split <;> simp_all
  · have hd : (getResponseOpts opt).withDiagnosticMessage = "Unused" :=
      foldl_applyOpt_diagMsg opt responseDefaults h
    simp only [Request.NewResponse]
    split <;> simp_all

/-- Witness for the C7 theorem: the empty option list supplies none of
the three options, and the defaults appear in the built response. -/
theorem newResponse_default_code_and_fields_witness :
    (reqEx.NewResponse []).base.code = 53 ∧
      (reqEx.NewResponse []).base.matchedDN = "Unused" ∧
      (reqEx.NewResponse []).base.diagMessage = "Unused" := by
  have h := newResponse_default_code_and_fields reqEx []
  exact ⟨h.1 (by simp), h.2.1 (by simp), h.2.2 (by simp)⟩

/-- C8: Router with a nil mux returns an error wrapping
ErrInvalidParameter and leaves the server unchanged; Router with a mux
returns nil and installs that mux as the route table. -/
theorem router_nil_rejected_and_install (s : Server) (m : Mux) :
    ((s.Router none).1 =
        some (.wrap "gldap.(Server).HandleRoutes: missing router" .invalidParameter) ∧
      GoErr.is ((s.Router none).1.getD .internal) .invalidParameter = true ∧
      (s.Router none).2 = s) ∧
    ((s.Router (some m)).1 = none ∧ (s.Router (some m)).2.router = some m) :=
  ⟨⟨rfl, rfl, rfl⟩, rfl, rfl⟩

/-- C9: every response constructor derives its messageID from the
request's message (GetID), whatever options are passed. -/
theorem responses_carry_request_messageID (r : Request) (opt : List GOption) (dn : String) :
    (r.NewResponse opt).base.messageID = r.message.GetID ∧
    (r.NewBindResponse opt).base.messageID = r.message.GetID ∧
    (r.NewExtendedResponse opt).base.messageID = r.message.GetID ∧
    (r.NewSearchDoneResponse opt).base.messageID = r.message.GetID ∧
    (r.NewSearchResponseEntry dn opt).base.messageID = r.message.GetID :=
  ⟨rfl, rfl, rfl, rfl, rfl⟩

/-- C10: every route variant's match returns false on a nil request. -/
theorem route_match_nil_request_false (b : BaseRoute) (bd f : String) (sc : Scope)
    (ac en : String) :
    addRoute.matches ⟨b⟩ none = false ∧
    modifyRoute.matches ⟨b⟩ none = false ∧
    simpleBindRoute.matches ⟨b, ac⟩ none = false ∧
    extendedRoute.matches ⟨b, en⟩ none = false ∧
    searchRoute.matches ⟨b, bd, f, sc⟩ none = false :=
  ⟨rfl, rfl, rfl, rfl, rfl⟩
